import Mathlib

/-!
Verification development for the Slack-notification Lambda
(`functions/notify_slack.py`).  The Python functions
`cloudwatch_notification`, `guardduty_finding`, `default_notification`
and `notify_slack` are embedded as executable Lean definitions over a
model `PyVal` of Python/JSON values; fallible Python operations
(dictionary subscripting, `in` on non-containers, string concatenation
with non-strings, `{**a, **b}` unpacking of non-mappings) are modelled
in the `Except PyErr` monad.  The delivery collaborator (the HTTP POST),
KMS decryption and environment-variable access are external interfaces
and are outside the modelled core; `notify_slack` here returns the
assembled outbound payload that the source hands to delivery.
-/

set_option autoImplicit false

namespace NotifySlack

/-- Model of the Python/JSON values the Lambda manipulates.  Python
distinguishes `int`, `float` and `bool`; floats are modelled as exact
rationals (every comparison the source performs is against the decimal
literals 4.0 and 7.0, whose ordering against inputs is preserved). -/
inductive PyVal where
  | str (s : String)
  | int (n : Int)
  | float (q : Rat)
  | bool (b : Bool)
  | noneVal
  | list (xs : List PyVal)
  | dict (kvs : List (String × PyVal))

/-- Python exceptions the modelled code can raise. -/
inductive PyErr where
  | keyError (k : String)
  | typeError (msg : String)
  | attributeError (msg : String)
deriving DecidableEq

mutual
/-- Python `==` (total, never raises).  Numeric cross-type equality
(`int`/`float`/`bool`) follows Python; `dict` equality is compared
entrywise in order (the source only ever compares against a string
literal, so the dict/dict case is never exercised). -/
def pyEq : PyVal → PyVal → Bool
  | .str a, .str b => a == b
  | .int a, .int b => a == b
  | .float a, .float b => a == b
  | .int a, .float b => ((a : Rat)) == b
  | .float a, .int b => a == ((b : Rat))
  | .bool a, .bool b => a == b
  | .bool a, .int b => (if a then (1 : Int) else 0) == b
  | .int a, .bool b => a == (if b then (1 : Int) else 0)
  | .bool a, .float b => (if a then (1 : Rat) else 0) == b
  | .float a, .bool b => a == (if b then (1 : Rat) else 0)
  | .noneVal, .noneVal => true
  | .list a, .list b => pyEqList a b
  | .dict a, .dict b => pyEqDict a b
  | _, _ => false
def pyEqList : List PyVal → List PyVal → Bool
  | [], [] => true
  | a :: as, b :: bs => pyEq a b && pyEqList as bs
  | _, _ => false
def pyEqDict : List (String × PyVal) → List (String × PyVal) → Bool
  | [], [] => true
  | (k, v) :: as, (k2, w) :: bs => k == k2 && pyEq v w && pyEqDict as bs
  | _, _ => false
end

/-- Python truthiness (`bool(v)`). -/
def pyTruthy : PyVal → Bool
  | .str s => s ≠ ""
  | .int n => n ≠ 0
  | .float q => q ≠ 0
  | .bool b => b
  | .noneVal => false
  | .list xs => !xs.isEmpty
  | .dict kvs => !kvs.isEmpty

/-- Is the value a Python `dict` or `list` (`isinstance(v, (dict, list))`)? -/
def isComposite : PyVal → Bool
  | .dict _ => true
  | .list _ => true
  | _ => false

/-- Decimal digits of the fractional part `r / d` (invariant `r < d`),
produced by long division; `Option.none` when the expansion does not
terminate within `fuel` digits. -/
def fracDigits : Nat → Nat → Nat → Option (List Char)
  | 0, _, _ => Option.none
  | _ + 1, 0, _ => some []
  | fuel + 1, r, d =>
    match fracDigits fuel (r * 10 % d) d with
    | some ds => some (Char.ofNat (48 + r * 10 / d) :: ds)
    | Option.none => Option.none

/-- Rendering of a Python float (`repr`), for the finite-decimal values
the source manipulates; rationals without a finite decimal expansion
fall back to a fraction rendering (no such value arises from the JSON
inputs the claims exercise). -/
def floatRepr (q : Rat) : String :=
  let sign := if q.num < 0 then "-" else ""
  let a := q.num.natAbs
  let ip := a / q.den
  let r := a % q.den
  if r == 0 then sign ++ toString ip ++ ".0"
  else
    match fracDigits 64 r q.den with
    | some ds => sign ++ toString ip ++ "." ++ String.mk ds
    | Option.none => sign ++ toString a ++ "/" ++ toString q.den

/-- Lowercase hexadecimal digit. -/
def hexDigitLower (n : Nat) : Char :=
  if n < 10 then Char.ofNat (48 + n) else Char.ofNat (87 + n)

/-- Uppercase hexadecimal digit. -/
def hexDigitUpper (n : Nat) : Char :=
  if n < 10 then Char.ofNat (48 + n) else Char.ofNat (55 + n)

/-- Four lowercase hex digits, as in JSON `\uXXXX` escapes. -/
def hex4 (n : Nat) : String :=
  String.mk [hexDigitLower (n / 4096 % 16), hexDigitLower (n / 256 % 16),
    hexDigitLower (n / 16 % 16), hexDigitLower (n % 16)]

/-- One character of `json.dumps` string output (`ensure_ascii` default:
escape quotes, backslashes, control characters and all non-ASCII,
using surrogate pairs above the BMP). -/
def jsonEscapeChar (c : Char) : String :=
  let n := c.toNat
  if c == Char.ofNat 34 then String.mk [Char.ofNat 92, Char.ofNat 34]
  else if c == Char.ofNat 92 then String.mk [Char.ofNat 92, Char.ofNat 92]
  else if n == 8 then "\\b"
  else if n == 9 then "\\t"
  else if n == 10 then "\\n"
  else if n == 12 then "\\f"
  else if n == 13 then "\\r"
  else if n < 32 then "\\u" ++ hex4 n
  else if n ≤ 126 then String.singleton c
  else if n < 65536 then "\\u" ++ hex4 n
  else
    let m := n - 65536
    "\\u" ++ hex4 (55296 + m / 1024) ++ "\\u" ++ hex4 (56320 + m % 1024)

/-- `json.dumps` of a string value. -/
def dumpsStr (s : String) : String :=
  "\"" ++ String.join (s.toList.map jsonEscapeChar) ++ "\""

mutual
/-- `json.dumps` with its default separators, as used by
`default_notification` for composite field values. -/
def json_dumps : PyVal → String
  | .str s => dumpsStr s
  | .int n => toString n
  | .float q => floatRepr q
  | .bool b => if b then "true" else "false"
  | .noneVal => "null"
  | .list xs => "[" ++ dumpsList xs ++ "]"
  | .dict kvs => "\x7b" ++ dumpsDict kvs ++ "\x7d"
def dumpsList : List PyVal → String
  | [] => ""
  | [x] => json_dumps x
  | x :: xs => json_dumps x ++ ", " ++ dumpsList xs
def dumpsDict : List (String × PyVal) → String
  | [] => ""
  | [(k, v)] => dumpsStr k ++ ": " ++ json_dumps v
  | (k, v) :: kvs => dumpsStr k ++ ": " ++ json_dumps v ++ ", " ++ dumpsDict kvs
end

mutual
/-- Python `repr` of a value, used by `str()` on composites (that path
feeds no claim; string contents are rendered unescaped). -/
def pyRepr : PyVal → String
  | .str s => "\x27" ++ s ++ "\x27"
  | .int n => toString n
  | .float q => floatRepr q
  | .bool b => if b then "True" else "False"
  | .noneVal => "None"
  | .list xs => "[" ++ reprList xs ++ "]"
  | .dict kvs => "\x7b" ++ reprDict kvs ++ "\x7d"
def reprList : List PyVal → String
  | [] => ""
  | [x] => pyRepr x
  | x :: xs => pyRepr x ++ ", " ++ reprList xs
def reprDict : List (String × PyVal) → String
  | [] => ""
  | [(k, v)] => "\x27" ++ k ++ "\x27: " ++ pyRepr v
  | (k, v) :: kvs => "\x27" ++ k ++ "\x27: " ++ pyRepr v ++ ", " ++ reprDict kvs
end

/-- Python `str(v)`. -/
def pyStr : PyVal → String
  | .str s => s
  | .int n => toString n
  | .float q => floatRepr q
  | .bool b => if b then "True" else "False"
  | .noneVal => "None"
  | .list xs => pyRepr (.list xs)
  | .dict kvs => pyRepr (.dict kvs)

/-- UTF-8 bytes of a character, for percent-encoding. -/
def utf8Nats (c : Char) : List Nat :=
  let n := c.toNat
  if n < 128 then [n]
  else if n < 2048 then [192 + n / 64, 128 + n % 64]
  else if n < 65536 then [224 + n / 4096, 128 + n / 64 % 64, 128 + n % 64]
  else [240 + n / 262144, 128 + n / 4096 % 64, 128 + n / 64 % 64, 128 + n % 64]

/-- Characters `urllib.parse.quote` leaves unescaped with its default
`safe="/"`: ASCII letters, digits, `_.-~` and `/`. -/
def quoteSafe (c : Char) : Bool :=
  (65 ≤ c.toNat && c.toNat ≤ 90) || (97 ≤ c.toNat && c.toNat ≤ 122) ||
  (48 ≤ c.toNat && c.toNat ≤ 57) ||
  c == '_' || c == '.' || c == '-' || c == '~' || c == '/'

/-- `urllib.parse.quote` on a string (default `safe="/"`). -/
def quote (s : String) : String :=
  String.join (s.toList.map fun c =>
    if quoteSafe c then String.singleton c
    else String.join ((utf8Nats c).map fun b =>
      String.mk ['%', hexDigitUpper (b / 16), hexDigitUpper (b % 16)]))

/-- Does the association list (a Python `dict`) carry the key?
(Python `k in d`.) -/
def hasKey (kvs : List (String × PyVal)) (k : String) : Bool :=
  (kvs.lookup k).isSome

/-- Python `d[k] = v`: replace the value in place when the key exists,
else append the entry (insertion order is preserved). -/
def dictSet (kvs : List (String × PyVal)) (k : String) (v : PyVal) :
    List (String × PyVal) :=
  match kvs with
  | [] => [(k, v)]
  | (k2, w) :: rest =>
    if k2 == k then (k2, v) :: rest else (k2, w) :: dictSet rest k v

/-- Python `{**a, **b}`: entries of `a`, then each entry of `b` written
with `dictSet` semantics (values of `b` win, new keys append). -/
def dictMerge (a b : List (String × PyVal)) : List (String × PyVal) :=
  b.foldl (fun acc p => dictSet acc p.1 p.2) a

/-- Python subscripting `v[k]` with a string key. -/
def PyVal.getItem : PyVal → String → Except PyErr PyVal
  | .dict kvs, k =>
    match kvs.lookup k with
    | some v => .ok v
    | Option.none => .error (.keyError k)
  | .str _, _ => .error (.typeError "string indices must be integers")
  | .list _, _ => .error (.typeError "list indices must be integers or slices, not str")
  | _, _ => .error (.typeError "object is not subscriptable")

/-- Python `s.startswith(p)` (computable prefix test on the character
lists; equivalent to `String.startsWith`). -/
def strStartsWith (s p : String) : Bool :=
  p.toList.isPrefixOf s.toList

/-- Substring test, Python `k in s` for strings. -/
def substrCheck (k s : String) : Bool :=
  s.toList.tails.any fun t => k.toList.isPrefixOf t

/-- Python `k in v` for a string key `k`: key presence on dicts,
substring search on strings, `==`-membership on lists, `TypeError`
otherwise. -/
def pyIn (k : String) : PyVal → Except PyErr Bool
  | .dict kvs => .ok (hasKey kvs k)
  | .str s => .ok (substrCheck k s)
  | .list xs => .ok (xs.any fun v => pyEq v (.str k))
  | _ => .error (.typeError "argument is not iterable")

/-- Python `a + v` where `a` is a string: concatenation when `v` is a
string, `TypeError` otherwise. -/
def pyAddStr (a : String) : PyVal → Except PyErr String
  | .str s => .ok (a ++ s)
  | _ => .error (.typeError "can only concatenate str (not other types) to str")

/-- Python `v < q` against a float literal: numeric types compare by
value (`bool` as 0/1), every other operand raises `TypeError`. -/
def pyLtFloat (v : PyVal) (q : Rat) : Except PyErr Bool :=
  match v with
  | .int n => .ok (decide ((n : Rat) < q))
  | .float x => .ok (decide (x < q))
  | .bool b => .ok (decide ((if b then (1 : Rat) else 0) < q))
  | _ => .error (.typeError "\x27<\x27 not supported between these instances")

/-- `urllib.parse.quote(v)`: only string arguments are accepted. -/
def pyQuote : PyVal → Except PyErr String
  | .str s => .ok (quote s)
  | _ => .error (.typeError "quote() expected string")

/-- Lookup in a literal string-to-string Python dict (`states[x]`):
`KeyError` on a missing or non-string key, `TypeError` on unhashable
keys. -/
def statesLookup (states : List (String × String)) : PyVal → Except PyErr String
  | .str s =>
    match states.lookup s with
    | some c => .ok c
    | Option.none => .error (.keyError s)
  | .list _ => .error (.typeError "unhashable type: \x27list\x27")
  | .dict _ => .error (.typeError "unhashable type: \x27dict\x27")
  | v => .error (.keyError (pyStr v))

/-- `{**base, **v}`: merge when `v` is a mapping, `TypeError` otherwise. -/
def mergeInto (base : List (String × PyVal)) : PyVal → Except PyErr PyVal
  | .dict kvs => .ok (.dict (dictMerge base kvs))
  | .str _ => .error (.typeError "\x27str\x27 object is not a mapping")
  | .list _ => .error (.typeError "\x27list\x27 object is not a mapping")
  | _ => .error (.typeError "object is not a mapping")

/-! ### JSON parsing (`json.loads`), used by the decode step of the dispatcher -/

/-- JSON whitespace skipping. -/
def skipWs : List Char → List Char
  | [] => []
  | c :: rest =>
    if c == ' ' || c == '\t' || c == '\n' || c == '\r' then skipWs rest
    else c :: rest

/-- ASCII decimal digit test. -/
def isJsonDigit (c : Char) : Bool :=
  48 ≤ c.toNat && c.toNat ≤ 57

/-- Longest digit prefix and the remainder. -/
def takeDigits : List Char → List Char × List Char
  | [] => ([], [])
  | c :: rest =>
    if isJsonDigit c then
      let p := takeDigits rest
      (c :: p.1, p.2)
    else ([], c :: rest)

/-- Value of a digit string. -/
def digitsToNat (ds : List Char) : Nat :=
  ds.foldl (fun a c => a * 10 + (c.toNat - 48)) 0

/-- Value of a hex digit, if any. -/
def hexVal (c : Char) : Option Nat :=
  let n := c.toNat
  if 48 ≤ n && n ≤ 57 then some (n - 48)
  else if 97 ≤ n && n ≤ 102 then some (n - 87)
  else if 65 ≤ n && n ≤ 70 then some (n - 55)
  else Option.none

/-- Body of a JSON string after the opening quote: returns the decoded
characters and the remainder after the closing quote.  Strict mode:
raw control characters and unknown escapes are rejected.  Lone
surrogate escapes (which the Lean `Char` type cannot carry) decode to the
replacement of `Char.ofNat`; no claim exercises them. -/
def parseStringBody : Nat → List Char → Option (List Char × List Char)
  | 0, _ => Option.none
  | _ + 1, [] => Option.none
  | fuel + 1, c :: rest =>
    if c == Char.ofNat 34 then some ([], rest)
    else if c == Char.ofNat 92 then
      match rest with
      | [] => Option.none
      | e :: rest2 =>
        if e == 'u' then
          match rest2 with
          | h1 :: h2 :: h3 :: h4 :: rest3 =>
            match hexVal h1, hexVal h2, hexVal h3, hexVal h4 with
            | some a, some b, some c2, some d =>
              match parseStringBody fuel rest3 with
              | some p => some (Char.ofNat (a * 4096 + b * 256 + c2 * 16 + d) :: p.1, p.2)
              | Option.none => Option.none
            | _, _, _, _ => Option.none
          | _ => Option.none
        else
          let dec : Option Char :=
            if e == Char.ofNat 34 then some (Char.ofNat 34)
            else if e == Char.ofNat 92 then some (Char.ofNat 92)
            else if e == '/' then some '/'
            else if e == 'b' then some (Char.ofNat 8)
            else if e == 'f' then some (Char.ofNat 12)
            else if e == 'n' then some (Char.ofNat 10)
            else if e == 'r' then some (Char.ofNat 13)
            else if e == 't' then some (Char.ofNat 9)
            else Option.none
          match dec with
          | some d =>
            match parseStringBody fuel rest2 with
            | some p => some (d :: p.1, p.2)
            | Option.none => Option.none
          | Option.none => Option.none
    else if c.toNat < 32 then Option.none
    else
      match parseStringBody fuel rest with
      | some p => some (c :: p.1, p.2)
      | Option.none => Option.none

/-- A JSON number (strict grammar: no leading zeros, mandatory digits
around `.` and after the exponent).  Integers without fraction or
exponent decode to Python `int`, the rest to `float`. -/
def parseNumber (l : List Char) : Option (PyVal × List Char) :=
  let (neg, l1) :=
    match l with
    | c :: rest => if c == '-' then (true, rest) else (false, l)
    | [] => (false, l)
  let ipOpt : Option (List Char × List Char) :=
    match l1 with
    | c :: rest =>
      if c == '0' then some ([c], rest)
      else if isJsonDigit c then
        let p := takeDigits rest
        some (c :: p.1, p.2)
      else Option.none
    | [] => Option.none
  match ipOpt with
  | Option.none => Option.none
  | some (ip, l2) =>
    let fracOpt : Option (List Char × List Char) :=
      match l2 with
      | c :: rest =>
        if c == '.' then
          match takeDigits rest with
          | ([], _) => Option.none
          | (ds, r) => some (ds, r)
        else some ([], l2)
      | [] => some ([], l2)
    match fracOpt with
    | Option.none => Option.none
    | some (fr, l3) =>
      let expOpt : Option (Bool × List Char × List Char) :=
        match l3 with
        | c :: rest =>
          if c == 'e' || c == 'E' then
            let (eneg, rest2) :=
              match rest with
              | c2 :: r2 =>
                if c2 == '-' then (true, r2)
                else if c2 == '+' then (false, r2)
                else (false, rest)
              | [] => (false, rest)
            match takeDigits rest2 with
            | ([], _) => Option.none
            | (ds, r) => some (eneg, ds, r)
          else some (false, [], l3)
        | [] => some (false, [], l3)
      match expOpt with
      | Option.none => Option.none
      | some (eneg, ex, l4) =>
        if fr.isEmpty && ex.isEmpty then
          let n : Int := Int.ofNat (digitsToNat ip)
          some (.int (if neg then -n else n), l4)
        else
          let mant : Rat :=
            (Int.ofNat (digitsToNat ip) : Rat) +
              (Int.ofNat (digitsToNat fr) : Rat) / ((10 : Rat) ^ fr.length)
          let scaled : Rat :=
            if ex.isEmpty then mant
            else if eneg then mant / ((10 : Rat) ^ digitsToNat ex)
            else mant * ((10 : Rat) ^ digitsToNat ex)
          some (.float (if neg then -scaled else scaled), l4)

mutual
/-- One JSON value at the head of the input (no leading whitespace). -/
def parseValue : Nat → List Char → Option (PyVal × List Char)
  | 0, _ => Option.none
  | fuel + 1, l =>
    match l with
    | [] => Option.none
    | c :: rest =>
      if c == Char.ofNat 34 then
        match parseStringBody (fuel + 1) rest with
        | some p => some (.str (String.mk p.1), p.2)
        | Option.none => Option.none
      else if c == Char.ofNat 123 then
        match skipWs rest with
        | c2 :: rest2 =>
          if c2 == Char.ofNat 125 then some (.dict [], rest2)
          else parseMembers fuel (skipWs rest) []
        | [] => Option.none
      else if c == '[' then
        match skipWs rest with
        | c2 :: rest2 =>
          if c2 == ']' then some (.list [], rest2)
          else parseItems fuel (skipWs rest) []
        | [] => Option.none
      else if c == 't' then
        match rest with
        | 'r' :: 'u' :: 'e' :: r => some (.bool true, r)
        | _ => Option.none
      else if c == 'f' then
        match rest with
        | 'a' :: 'l' :: 's' :: 'e' :: r => some (.bool false, r)
        | _ => Option.none
      else if c == 'n' then
        match rest with
        | 'u' :: 'l' :: 'l' :: r => some (.noneVal, r)
        | _ => Option.none
      else if c == '-' || isJsonDigit c then parseNumber l
      else Option.none
/-- Members of a JSON object after the opening brace (at least one);
duplicate keys overwrite in place as the Python decoder does. -/
def parseMembers : Nat → List Char → List (String × PyVal) →
    Option (PyVal × List Char)
  | 0, _, _ => Option.none
  | fuel + 1, l, acc =>
    match skipWs l with
    | c :: rest =>
      if c == Char.ofNat 34 then
        match parseStringBody (fuel + 1) rest with
        | some (ks, r2) =>
          match skipWs r2 with
          | c2 :: r3 =>
            if c2 == ':' then
              match parseValue fuel (skipWs r3) with
              | some (v, r4) =>
                let acc2 := dictSet acc (String.mk ks) v
                match skipWs r4 with
                | c3 :: r5 =>
                  if c3 == ',' then parseMembers fuel r5 acc2
                  else if c3 == Char.ofNat 125 then some (.dict acc2, r5)
                  else Option.none
                | [] => Option.none
              | Option.none => Option.none
            else Option.none
          | [] => Option.none
        | Option.none => Option.none
      else Option.none
    | [] => Option.none
/-- Items of a JSON array after the opening bracket (at least one). -/
def parseItems : Nat → List Char → List PyVal → Option (PyVal × List Char)
  | 0, _, _ => Option.none
  | fuel + 1, l, acc =>
    match parseValue fuel (skipWs l) with
    | some (v, r) =>
      match skipWs r with
      | c :: rest =>
        if c == ',' then parseItems fuel rest (acc ++ [v])
        else if c == ']' then some (.list (acc ++ [v]), rest)
        else Option.none
      | [] => Option.none
    | Option.none => Option.none
end

/-- `json.loads`: parse one JSON document, requiring the whole input to
be consumed (modulo whitespace); `Option.none` models raising
`json.JSONDecodeError`.  (`NaN`/`Infinity` literals have no rational
denotation and are outside the modelled value domain.) -/
def jsonParse (s : String) : Option PyVal :=
  match parseValue (2 * s.length + 16) (skipWs s.toList) with
  | some (v, rest) => if (skipWs rest).isEmpty then some v else Option.none
  | Option.none => Option.none

/-! ### The source functions of `functions/notify_slack.py` -/

/-- `cloudwatch_notification(message, region)`: the Alarm-shape
classifier.  The `do` steps follow the evaluation order of the Python
dict literal (the `color` value first, then `fallback`, then the six
fields), so the first raised exception matches the source. -/
def cloudwatch_notification (message : PyVal) (region : String) :
    Except PyErr PyVal := do
  let states : List (String × String) :=
    [("OK", "good"), ("INSUFFICIENT_DATA", "warning"), ("ALARM", "danger")]
  let cloudwatch_url :=
    if strStartsWith region "us-gov-" then
      "https://console.amazonaws-us-gov.com/cloudwatch/home?region="
    else
      "https://console.aws.amazon.com/cloudwatch/home?region="
  let newState ← message.getItem "NewStateValue"
  let color ← statesLookup states newState
  let fallbackName ← message.getItem "AlarmName"
  let name ← message.getItem "AlarmName"
  let desc ← message.getItem "AlarmDescription"
  let reason ← message.getItem "NewStateReason"
  let oldState ← message.getItem "OldStateValue"
  let newState2 ← message.getItem "NewStateValue"
  let linkName ← message.getItem "AlarmName"
  let quotedName ← pyQuote linkName
  pure (.dict
    [("color", .str color),
     ("fallback", .str ("Alarm " ++ pyStr fallbackName ++ " triggered")),
     ("fields", .list
       [.dict [("title", .str "Alarm Name"), ("value", name), ("short", .bool true)],
        .dict [("title", .str "Alarm Description"), ("value", desc), ("short", .bool false)],
        .dict [("title", .str "Alarm reason"), ("value", reason), ("short", .bool false)],
        .dict [("title", .str "Old State"), ("value", oldState), ("short", .bool true)],
        .dict [("title", .str "Current State"), ("value", newState2), ("short", .bool true)],
        .dict [("title", .str "Link to Alarm"),
               ("value", .str (cloudwatch_url ++ region ++
                 "#alarm:alarmFilter=ANY;name=" ++ quotedName)),
               ("short", .bool false)]])])

/-- `guardduty_finding(message, region)`: the Finding-shape classifier.
Its `region` parameter is an arbitrary Python value (the dispatcher
passes `message["region"]`); the first operation performed on it is
`.startswith`, which fails on non-strings. -/
def guardduty_finding (message : PyVal) (region : PyVal) :
    Except PyErr PyVal := do
  let states : List (String × String) :=
    [("Low", "#777777"), ("Medium", "warning"), ("High", "danger")]
  let r ← match region with
    | .str r => Except.ok r
    | _ => Except.error (.attributeError "object has no attribute \x27startswith\x27")
  let guardduty_url :=
    if strStartsWith r "us-gov-" then
      "https://console.amazonaws-us-gov.com/guardduty/home?region="
    else
      "https://console.aws.amazon.com/guardduty/home?region="
  let detail ← message.getItem "detail"
  let sev ← detail.getItem "severity"
  let lt4 ← pyLtFloat sev 4
  let severity ←
    if lt4 then pure "Low"
    else do
      let lt7 ← pyLtFloat sev 7
      if lt7 then pure "Medium" else pure "High"
  let color ← statesLookup states (.str severity)
  let title ← detail.getItem "title"
  let desc ← detail.getItem "description"
  let ftype ← detail.getItem "type"
  let service ← detail.getItem "service"
  let firstSeen ← service.getItem "eventFirstSeen"
  let lastSeen ← service.getItem "eventLastSeen"
  let count ← service.getItem "count"
  let fid ← detail.getItem "id"
  let link ← pyAddStr (guardduty_url ++ r ++ "#/findings?search=id%3D") fid
  pure (.dict
    [("color", .str color),
     ("fallback", .str ("GuardDuty Finding: " ++ pyStr title)),
     ("fields", .list
       [.dict [("title", .str "Description"), ("value", desc), ("short", .bool false)],
        .dict [("title", .str "Finding type"), ("value", ftype), ("short", .bool false)],
        .dict [("title", .str "First Seen"), ("value", firstSeen), ("short", .bool true)],
        .dict [("title", .str "Last Seen"), ("value", lastSeen), ("short", .bool true)],
        .dict [("title", .str "Severity"), ("value", .str severity), ("short", .bool true)],
        .dict [("title", .str "Count"), ("value", count), ("short", .bool true)],
        .dict [("title", .str "Link to Finding"), ("value", .str link), ("short", .bool false)]])])

/-- The value rendering of `default_notification`:
`f"`{json.dumps(v)}`"` for dicts and lists, `str(v)` otherwise. -/
def renderValue (v : PyVal) : String :=
  if isComposite v then "`" ++ json_dumps v ++ "`" else pyStr v

/-- `default_notification(subject, message)`: the Generic-shape
classifier (always succeeds). -/
def default_notification (subject : PyVal) (message : PyVal) : PyVal :=
  let fields : List PyVal :=
    match message with
    | .dict kvs =>
      kvs.map fun p =>
        let value := renderValue p.2
        .dict [("title", .str p.1), ("value", .str value),
               ("short", .bool (value.length < 25))]
    | m => [.dict [("value", m), ("short", .bool false)]]
  .dict
    [("fallback", .str "A new message"),
     ("title", if pyTruthy subject then subject else .str "Message"),
     ("mrkdwn_in", .list [.str "value"]),
     ("fields", .list fields)]

/-! ### The dispatcher `notify_slack` -/

/-- The environment-sourced configuration read at the top of
`notify_slack` (`SLACK_CHANNEL`, `SLACK_USERNAME`, `SLACK_EMOJI`,
`ENVIRONMENT_NAME`); the webhook URL feeds only the excluded delivery
step. -/
structure SlackConfig where
  slack_channel : String
  slack_username : String
  slack_emoji : String
  environment_name : String

/-- The base outbound envelope `payload` built before dispatch. -/
def basePayload (cfg : SlackConfig) : List (String × PyVal) :=
  [("channel", .str cfg.slack_channel),
   ("username", .str cfg.slack_username),
   ("icon_emoji", .str cfg.slack_emoji),
   ("attachments", .list [])]

/-- The summary-line prefix: `"[{environment_name}] "` when the
configured environment name is truthy (non-empty), else empty. -/
def envPrefixOf (cfg : SlackConfig) : String :=
  if cfg.environment_name == "" then "" else "[" ++ cfg.environment_name ++ "] "

/-- The decode step of `notify_slack`: when the message is a string,
try `json.loads`; on failure log and keep the raw string. -/
def parseStep (m : PyVal) : PyVal :=
  match m with
  | .str s =>
    match jsonParse s with
    | some v => v
    | Option.none => .str s
  | v => v

/-- The condition of the Finding branch:
`"detail-type" in message and message["detail-type"] == "GuardDuty Finding"`
(short-circuit: the subscript is only evaluated when the membership
test succeeded, and raises `TypeError` on strings). -/
def findingCond (m : PyVal) : Except PyErr Bool := do
  let b ← pyIn "detail-type" m
  if b then do
    let v ← m.getItem "detail-type"
    pure (pyEq v (.str "GuardDuty Finding"))
  else pure false

/-- The condition of the pass-through branch:
`"attachments" in message or "text" in message` (short-circuit `or`). -/
def preformattedCond (m : PyVal) : Except PyErr Bool := do
  let a ← pyIn "attachments" m
  if a then pure true else pyIn "text" m

/-- The four notification shapes the dispatcher distinguishes. -/
inductive Shape where
  | alarm
  | finding
  | preformatted
  | generic
deriving DecidableEq

/-- The classification step of `notify_slack`, exactly the `if`/`elif`
conditions of the dispatch chain in source order. -/
def classify (m : PyVal) : Except PyErr Shape := do
  if (← pyIn "AlarmName" m) then pure .alarm
  else if (← findingCond m) then pure .finding
  else if (← preformattedCond m) then pure .preformatted
  else pure .generic

/-- The Finding-branch condition specialised to a structured mapping,
where it is total. -/
def findingCondDict (kvs : List (String × PyVal)) : Bool :=
  if hasKey kvs "detail-type" then
    match kvs.lookup "detail-type" with
    | some v => pyEq v (.str "GuardDuty Finding")
    | Option.none => false
  else false

/-- Classification specialised to a structured mapping, where it is a
total function. -/
def classifyDict (kvs : List (String × PyVal)) : Shape :=
  if hasKey kvs "AlarmName" then .alarm
  else if findingCondDict kvs then .finding
  else if hasKey kvs "attachments" || hasKey kvs "text" then .preformatted
  else .generic

/-- The Alarm branch of the dispatcher: build the attachment, set
`payload["text"]` and append the attachment. -/
def alarmBranch (cfg : SlackConfig) (message : PyVal) (region : String) :
    Except PyErr PyVal := do
  let notif ← cloudwatch_notification message region
  let name ← message.getItem "AlarmName"
  let txt ← pyAddStr (envPrefixOf cfg ++ "AWS CloudWatch notification - ") name
  pure (.dict (dictSet (dictSet (basePayload cfg) "text" (.str txt))
    "attachments" (.list [notif])))

/-- The Finding branch of the dispatcher: the region passed on is
`message["region"]`, not the region argument of the caller. -/
def findingBranch (cfg : SlackConfig) (message : PyVal) :
    Except PyErr PyVal := do
  let msgRegion ← message.getItem "region"
  let notif ← guardduty_finding message msgRegion
  let detail ← message.getItem "detail"
  let title ← detail.getItem "title"
  let txt ← pyAddStr (envPrefixOf cfg ++ "Amazon GuardDuty Finding - ") title
  pure (.dict (dictSet (dictSet (basePayload cfg) "text" (.str txt))
    "attachments" (.list [notif])))

/-- The Generic branch of the dispatcher (always succeeds). -/
def genericBranch (cfg : SlackConfig) (subject message : PyVal) : PyVal :=
  .dict (dictSet (dictSet (basePayload cfg)
    "text" (.str (envPrefixOf cfg ++ "AWS notification")))
    "attachments" (.list [default_notification subject message]))

/-- The dispatch chain of `notify_slack` on the (already decoded)
message: the `if`/`elif`/`else` ladder in source order. -/
def dispatchMsg (cfg : SlackConfig) (subject message : PyVal)
    (region : String) : Except PyErr PyVal := do
  if (← pyIn "AlarmName" message) then
    alarmBranch cfg message region
  else if (← findingCond message) then
    findingBranch cfg message
  else if (← preformattedCond message) then
    mergeInto (basePayload cfg) message
  else
    pure (genericBranch cfg subject message)

/-- `notify_slack(subject, message, region)` up to the point where the
assembled payload is handed to the delivery collaborator (the HTTP
POST itself is an excluded external interface); the returned value is
that payload. -/
def notify_slack (cfg : SlackConfig) (subject message0 : PyVal)
    (region : String) : Except PyErr PyVal :=
  dispatchMsg cfg subject (parseStep message0) region

/-! ### Extraction helpers for stating the claims -/

/-- Indexing into a modelled Python list. -/
def PyVal.index : PyVal → Nat → Except PyErr PyVal
  | .list xs, i =>
    match xs.get? i with
    | some v => .ok v
    | Option.none => .error (.keyError "list index out of range")
  | _, _ => .error (.typeError "object is not a list")

/-- Subscript under `Except`. -/
def exGet (e : Except PyErr PyVal) (k : String) : Except PyErr PyVal := do
  (← e).getItem k

/-- List indexing under `Except`. -/
def exIdx (e : Except PyErr PyVal) (i : Nat) : Except PyErr PyVal := do
  PyVal.index (← e) i

/-- The color and the value of the `Severity` field (index 4) of a
Finding attachment. -/
def sevColorOf (e : Except PyErr PyVal) : Except PyErr (PyVal × PyVal) := do
  let a ← e
  let c ← a.getItem "color"
  let s ← exGet (exIdx (a.getItem "fields") 4) "value"
  pure (c, s)

/-- The value of the `Link to Alarm` field (index 5) of an Alarm
attachment. -/
def alarmLinkOf (e : Except PyErr PyVal) : Except PyErr PyVal :=
  exGet (exIdx (exGet e "fields") 5) "value"

/-- The value of the `Link to Finding` field (index 6) of a Finding
attachment. -/
def findingLinkOf (e : Except PyErr PyVal) : Except PyErr PyVal :=
  exGet (exIdx (exGet e "fields") 6) "value"

/-- A concrete configuration used by the closed evaluations. -/
def testCfg : SlackConfig :=
  { slack_channel := "#alerts", slack_username := "notifier",
    slack_emoji := ":robot_face:", environment_name := "prod" }

/-- A fully populated Alarm payload with the given name and new-state
label. -/
def alarmMsgP (name state : String) : PyVal :=
  .dict
    [("AlarmName", .str name),
     ("AlarmDescription", .str "desc"),
     ("NewStateReason", .str "reason"),
     ("OldStateValue", .str "OK"),
     ("NewStateValue", .str state)]

/-- A fully populated GuardDuty Finding payload with the given embedded
region, title and severity score. -/
def findingMsgP (rg t : String) (s : Rat) : PyVal :=
  .dict
    [("detail-type", .str "GuardDuty Finding"),
     ("region", .str rg),
     ("detail", .dict
       [("severity", .float s),
        ("title", .str t),
        ("description", .str "Deviant behaviour"),
        ("type", .str "Recon:EC2"),
        ("id", .str "fid01"),
        ("service", .dict
          [("eventFirstSeen", .str "2020-01-01T00:00:00Z"),
           ("eventLastSeen", .str "2020-01-02T00:00:00Z"),
           ("count", .int 3)])])]

/-! ### Association-list lemmas for the merge semantics -/

theorem lookup_dictSet (a : List (String × PyVal)) (k : String) (v : PyVal)
    (k' : String) :
    (dictSet a k v).lookup k' = if k' == k then some v else a.lookup k' := by
  induction a with
  | nil =>
    cases hb : k' == k <;> simp [dictSet, List.lookup, hb]
  | cons p rest ih =>
    obtain ⟨k2, w⟩ := p
    cases hb2 : k2 == k with
    | true =>
      have : k2 = k := eq_of_beq hb2
      subst this
      cases hb : k' == k2 <;> simp [dictSet, List.lookup, hb2, hb]
    | false =>
      cases hb : k' == k2 with
      | true =>
        have : k' = k2 := eq_of_beq hb
        subst this
        have hbk : (k' == k) = false := hb2
        simp [dictSet, List.lookup, hb2, hb, hbk]
      | false =>
        simp [dictSet, List.lookup, hb2, hb, ih]

theorem lookup_eq_none_of_not_keys (b : List (String × PyVal)) (k : String)
    (h : k ∉ b.map Prod.fst) : b.lookup k = Option.none := by
  induction b with
  | nil => simp [List.lookup]
  | cons p rest ih =>
    obtain ⟨k1, v1⟩ := p
    simp only [List.map_cons, List.mem_cons] at h
    push_neg at h
    have hb : (k == k1) = false := beq_eq_false_iff_ne.mpr h.1
    simp [List.lookup, hb, ih h.2]

theorem lookup_dictMerge_of_none (b : List (String × PyVal)) :
    ∀ (a : List (String × PyVal)) (k : String),
      b.lookup k = Option.none →
      (dictMerge a b).lookup k = a.lookup k := by
  induction b with
  | nil => intro a k _; rfl
  | cons p rest ih =>
    intro a k h
    obtain ⟨k1, v1⟩ := p
    cases hb : k == k1 with
    | true => simp [List.lookup, hb] at h
    | false =>
      simp only [List.lookup, hb] at h
      have step : dictMerge a ((k1, v1) :: rest) =
          dictMerge (dictSet a k1 v1) rest := rfl
      rw [step, ih _ k h, lookup_dictSet]
      simp [hb]

theorem lookup_dictMerge_of_some (b : List (String × PyVal)) :
    ∀ (a : List (String × PyVal)) (k : String) (v : PyVal),
      (b.map Prod.fst).Nodup → b.lookup k = some v →
      (dictMerge a b).lookup k = some v := by
  induction b with
  | nil => intro a k v _ h; simp [List.lookup] at h
  | cons p rest ih =>
    intro a k v hnd h
    obtain ⟨k1, v1⟩ := p
    simp only [List.map_cons, List.nodup_cons] at hnd
    have step : dictMerge a ((k1, v1) :: rest) =
        dictMerge (dictSet a k1 v1) rest := rfl
    cases hb : k == k1 with
    | true =>
      have hk : k = k1 := eq_of_beq hb
      subst hk
      have hv : v1 = v := by simpa [List.lookup, hb] using h
      subst hv
      have hrest : rest.lookup k = Option.none :=
        lookup_eq_none_of_not_keys rest k (by simpa using hnd.1)
      rw [step, lookup_dictMerge_of_none rest _ k hrest, lookup_dictSet]
      simp
    | false =>
      simp only [List.lookup, hb] at h
      rw [step, ih _ k v hnd.2 h]

/-! ### Reduction of the dispatch conditions on structured payloads -/

theorem findingCond_dict (kvs : List (String × PyVal)) :
    findingCond (.dict kvs) = .ok (findingCondDict kvs) := by
  unfold findingCond findingCondDict
  cases hl : kvs.lookup "detail-type" with
  | none =>
    simp [pyIn, hasKey, hl, PyVal.getItem, Bind.bind, Except.bind,
      Pure.pure, Except.pure]
  | some v =>
    simp [pyIn, hasKey, hl, PyVal.getItem, Bind.bind, Except.bind,
      Pure.pure, Except.pure]

theorem preformattedCond_dict (kvs : List (String × PyVal)) :
    preformattedCond (.dict kvs) =
      .ok (hasKey kvs "attachments" || hasKey kvs "text") := by
  unfold preformattedCond
  cases ha : hasKey kvs "attachments" <;>
    simp [pyIn, ha, Bind.bind, Except.bind, Pure.pure, Except.pure]

theorem pyIn_dict (k : String) (kvs : List (String × PyVal)) :
    pyIn k (.dict kvs) = .ok (hasKey kvs k) := rfl

theorem classify_dict (kvs : List (String × PyVal)) :
    classify (.dict kvs) = .ok (classifyDict kvs) := by
  unfold classify classifyDict
  simp only [pyIn_dict, findingCond_dict, preformattedCond_dict]
  cases ha : hasKey kvs "AlarmName" <;>
    cases hf : findingCondDict kvs <;>
      cases hp : hasKey kvs "attachments" || hasKey kvs "text" <;>
        simp [Bind.bind, Except.bind, Pure.pure, Except.pure]

/-- On a structured payload the dispatcher takes exactly the branch
selected by the (total) classification. -/
theorem notify_slack_dict (cfg : SlackConfig) (subject : PyVal)
    (rg : String) (kvs : List (String × PyVal)) :
    notify_slack cfg subject (.dict kvs) rg =
      match classifyDict kvs with
      | .alarm => alarmBranch cfg (.dict kvs) rg
      | .finding => findingBranch cfg (.dict kvs)
      | .preformatted => mergeInto (basePayload cfg) (.dict kvs)
      | .generic => pure (genericBranch cfg subject (.dict kvs)) := by
  unfold notify_slack dispatchMsg classifyDict
  rw [show parseStep (.dict kvs) = .dict kvs from rfl]
  simp only [pyIn_dict, findingCond_dict, preformattedCond_dict]
  cases ha : hasKey kvs "AlarmName" <;>
    cases hf : findingCondDict kvs <;>
      cases hp : hasKey kvs "attachments" || hasKey kvs "text" <;>
        simp [Bind.bind, Except.bind, Pure.pure, Except.pure]

/-! ### Inversion helpers -/

theorem bind_ok_inv {α β : Type} (e : Except PyErr α) (f : α → Except PyErr β)
    (b : β) (h : Bind.bind e f = .ok b) : ∃ a, e = .ok a ∧ f a = .ok b := by
  cases e with
  | error err => simp [Bind.bind, Except.bind] at h
  | ok a => exact ⟨a, rfl, by simpa [Bind.bind, Except.bind] using h⟩

theorem pyAddStr_ok (a : String) (v : PyVal) (t : String)
    (h : pyAddStr a v = .ok t) : ∃ s, v = .str s ∧ t = a ++ s := by
  cases v <;> simp [pyAddStr] at h
  exact ⟨_, rfl, h.symm⟩

theorem append_ne_empty_right (e lit : String) (hl : 0 < lit.length) :
    e ++ lit ≠ "" := by
  intro h
  have h2 := congrArg String.length h
  rw [String.length_append] at h2
  simp at h2
  omega

theorem append_mid_ne_empty (e lit s : String) (hl : 0 < lit.length) :
    (e ++ lit) ++ s ≠ "" := by
  intro h
  have h2 := congrArg String.length h
  rw [String.length_append, String.length_append] at h2
  simp at h2
  omega

/-! ### The claims -/

/-- C1: classification is indeed total and exclusive on structured
mappings (every mapping is assigned exactly one of the four shapes and
classification cannot fail there), but the claim extends this to text
bodies that failed structured parsing, and there the code breaks it:
Python `in` on a `str` is a substring test, so the raw text
`"detail-type"` (which fails JSON parsing) makes the Finding condition
evaluate `message["detail-type"]` on a string and classification
raises `TypeError` instead of reaching the Generic catch-all. -/
theorem c1_classification_not_total_on_text :
    (∀ kvs, classify (.dict kvs) = .ok (classifyDict kvs))
    ∧ jsonParse "detail-type" = Option.none
    ∧ classify (parseStep (.str "detail-type")) =
        .error (.typeError "string indices must be integers")
    ∧ notify_slack testCfg (.str "S") (.str "detail-type") "us-east-1" =
        .error (.typeError "string indices must be integers") :=
  ⟨classify_dict, rfl, rfl, rfl⟩

/-- C2: the Finding severity score is bucketed as Low below 4.0, Medium
from 4.0 up to (excluding) 7.0, High from 7.0, and the buckets map to
the colors neutral-gray (`#777777`), `warning` and `danger`; the pair
extracted is (attachment color, Severity field value). -/
theorem c2_severity_buckets (s : Rat) (rg : String) :
    (s < 4 →
      sevColorOf (guardduty_finding (findingMsgP "eu-west-1" "T" s) (.str rg)) =
        .ok (.str "#777777", .str "Low"))
    ∧ (4 ≤ s → s < 7 →
      sevColorOf (guardduty_finding (findingMsgP "eu-west-1" "T" s) (.str rg)) =
        .ok (.str "warning", .str "Medium"))
    ∧ (7 ≤ s →
      sevColorOf (guardduty_finding (findingMsgP "eu-west-1" "T" s) (.str rg)) =
        .ok (.str "danger", .str "High")) := by
  refine ⟨fun h => ?_, fun h1 h2 => ?_, fun h => ?_⟩
  · have h4 : decide (s < 4) = true := decide_eq_true h
    simp [guardduty_finding, findingMsgP, sevColorOf, exGet, exIdx,
      PyVal.getItem, PyVal.index, pyLtFloat, statesLookup, pyAddStr, pyStr,
      List.lookup, h4, Bind.bind, Except.bind, Pure.pure, Except.pure]
  · have h4 : decide (s < 4) = false := decide_eq_false (not_lt.mpr h1)
    have h7 : decide (s < 7) = true := decide_eq_true h2
    simp [guardduty_finding, findingMsgP, sevColorOf, exGet, exIdx,
      PyVal.getItem, PyVal.index, pyLtFloat, statesLookup, pyAddStr, pyStr,
      List.lookup, h4, h7, Bind.bind, Except.bind, Pure.pure, Except.pure]
  · have h4 : decide (s < 4) = false :=
      decide_eq_false (not_lt.mpr (le_trans (by norm_num) h))
    have h7 : decide (s < 7) = false := decide_eq_false (not_lt.mpr h)
    simp [guardduty_finding, findingMsgP, sevColorOf, exGet, exIdx,
      PyVal.getItem, PyVal.index, pyLtFloat, statesLookup, pyAddStr, pyStr,
      List.lookup, h4, h7, Bind.bind, Except.bind, Pure.pure, Except.pure]

/-- C2 witness: the boundary scores 3.9, 4.0, 6.99 and 7.0 land in the
buckets Low, Medium, Medium and High with their colors. -/
theorem c2_severity_buckets_witness :
    ((39 : Rat) / 10 < 4
      ∧ sevColorOf (guardduty_finding
          (findingMsgP "eu-west-1" "T" ((39 : Rat) / 10)) (.str "eu-west-1")) =
        .ok (.str "#777777", .str "Low"))
    ∧ sevColorOf (guardduty_finding
        (findingMsgP "eu-west-1" "T" 4) (.str "eu-west-1")) =
      .ok (.str "warning", .str "Medium")
    ∧ sevColorOf (guardduty_finding
        (findingMsgP "eu-west-1" "T" ((699 : Rat) / 100)) (.str "eu-west-1")) =
      .ok (.str "warning", .str "Medium")
    ∧ sevColorOf (guardduty_finding
        (findingMsgP "eu-west-1" "T" 7) (.str "eu-west-1")) =
      .ok (.str "danger", .str "High") :=
  ⟨⟨by norm_num, (c2_severity_buckets ((39 : Rat) / 10) "eu-west-1").1 (by norm_num)⟩,
   (c2_severity_buckets 4 "eu-west-1").2.1 (by norm_num) (by norm_num),
   (c2_severity_buckets ((699 : Rat) / 100) "eu-west-1").2.1 (by norm_num) (by norm_num),
   (c2_severity_buckets 7 "eu-west-1").2.2 (by norm_num)⟩

/-- C3: the Alarm state-to-color mapping is the closed set
`OK -> good`, `INSUFFICIENT_DATA -> warning`, `ALARM -> danger`, and on
any other state label the lookup fails with a `KeyError` carrying the
label (the modelled `UnknownStateError`): the classifier never defaults
to a color. -/
theorem c3_alarm_state_colors (state rg name : String) :
    exGet (cloudwatch_notification (alarmMsgP name "OK") rg) "color" =
      .ok (.str "good")
    ∧ exGet (cloudwatch_notification (alarmMsgP name "INSUFFICIENT_DATA") rg) "color" =
      .ok (.str "warning")
    ∧ exGet (cloudwatch_notification (alarmMsgP name "ALARM") rg) "color" =
      .ok (.str "danger")
    ∧ (state ∉ (["OK", "INSUFFICIENT_DATA", "ALARM"] : List String) →
        cloudwatch_notification (alarmMsgP name state) rg =
          .error (.keyError state)) := by
  refine ⟨rfl, rfl, rfl, fun h => ?_⟩
  simp only [List.mem_cons, List.not_mem_nil, or_false, not_or] at h
  obtain ⟨h1, h2, h3⟩ := h
  have b1 : (state == "OK") = false := beq_eq_false_iff_ne.mpr h1
  have b2 : (state == "INSUFFICIENT_DATA") = false := beq_eq_false_iff_ne.mpr h2
  have b3 : (state == "ALARM") = false := beq_eq_false_iff_ne.mpr h3
  simp [cloudwatch_notification, alarmMsgP, PyVal.getItem, statesLookup,
    List.lookup, b1, b2, b3, Bind.bind, Except.bind, Pure.pure, Except.pure]

/-- C3 witness: the unrecognized label `SNOOZED` makes the Alarm
classifier fail with a `KeyError` instead of defaulting, while `OK`
maps to `good`. -/
theorem c3_alarm_state_colors_witness :
    ("SNOOZED" ∉ (["OK", "INSUFFICIENT_DATA", "ALARM"] : List String))
    ∧ cloudwatch_notification (alarmMsgP "cpu-high" "SNOOZED") "us-east-1" =
      .error (.keyError "SNOOZED")
    ∧ exGet (cloudwatch_notification (alarmMsgP "cpu-high" "OK") "us-east-1") "color" =
      .ok (.str "good") :=
  ⟨by decide,
   (c3_alarm_state_colors "SNOOZED" "us-east-1" "cpu-high").2.2.2 (by decide),
   (c3_alarm_state_colors "SNOOZED" "us-east-1" "cpu-high").1⟩

/-- C4: the generic field renderer produces one field per entry of the
mapping, preserving input order; a mapping or sequence value is
rendered as the backtick-wrapped `json.dumps` serialization, any other
value via `str()`; `short` is exactly `len(value) < 25`, so a 24-char
value is short and a 25-char value is not. -/
theorem c4_field_renderer (subject : PyVal) (kvs : List (String × PyVal)) :
    (default_notification subject (.dict kvs)).getItem "fields" =
      .ok (.list (kvs.map fun p => .dict
        [("title", .str p.1), ("value", .str (renderValue p.2)),
         ("short", .bool (decide ((renderValue p.2).length < 25)))]))
    ∧ (∀ s : String, renderValue (.str s) = s)
    ∧ (∀ xs : List PyVal,
        renderValue (.list xs) = "`" ++ json_dumps (.list xs) ++ "`")
    ∧ (∀ kvs2 : List (String × PyVal),
        renderValue (.dict kvs2) = "`" ++ json_dumps (.dict kvs2) ++ "`")
    ∧ ("abcdefghijklmnopqrstuvwx".length = 24
        ∧ (default_notification (.str "S")
            (.dict [("k", .str "abcdefghijklmnopqrstuvwx")])).getItem "fields" =
          .ok (.list [.dict [("title", .str "k"),
            ("value", .str "abcdefghijklmnopqrstuvwx"),
            ("short", .bool true)]]))
    ∧ ("abcdefghijklmnopqrstuvwxy".length = 25
        ∧ (default_notification (.str "S")
            (.dict [("k", .str "abcdefghijklmnopqrstuvwxy")])).getItem "fields" =
          .ok (.list [.dict [("title", .str "k"),
            ("value", .str "abcdefghijklmnopqrstuvwxy"),
            ("short", .bool false)]])) :=
  ⟨rfl, fun _ => rfl, fun _ => rfl, fun _ => rfl, ⟨rfl, rfl⟩, ⟨rfl, rfl⟩⟩

/-- C5: for every region string, both classifiers build the console
deep-link on the government host exactly when the region starts with
`us-gov-` and on the standard host otherwise, and the Alarm link
embeds the URL-escaped alarm name as its filter parameter. -/
theorem c5_partition_link_routing (rg name : String) :
    alarmLinkOf (cloudwatch_notification (alarmMsgP name "OK") rg) =
      .ok (.str ((if strStartsWith rg "us-gov-" then
          "https://console.amazonaws-us-gov.com/cloudwatch/home?region="
        else
          "https://console.aws.amazon.com/cloudwatch/home?region=") ++ rg ++
        "#alarm:alarmFilter=ANY;name=" ++ quote name))
    ∧ findingLinkOf (guardduty_finding (findingMsgP "eu-west-1" "T" 5) (.str rg)) =
      .ok (.str (((if strStartsWith rg "us-gov-" then
          "https://console.amazonaws-us-gov.com/guardduty/home?region="
        else
          "https://console.aws.amazon.com/guardduty/home?region=") ++ rg ++
        "#/findings?search=id%3D") ++ "fid01"))
    ∧ strStartsWith "us-gov-west-1" "us-gov-" = true
    ∧ strStartsWith "us-east-1" "us-gov-" = false :=
  ⟨rfl, rfl, by decide, by decide⟩

/-- C7: the claim says every raw text body that fails JSON parsing is
recovered into a Generic notification.  The code only does so when the
text avoids the trigger substrings: `"text"` fails JSON parsing, yet
dispatch classifies it as Preformatted (substring `in`) and then
`{**payload, **message}` raises `TypeError`, failing the invocation.
A text body without trigger substrings (`"Hello world"`) does take the
Generic path. -/
theorem c7_parse_failure_not_recovered :
    jsonParse "text" = Option.none
    ∧ classify (parseStep (.str "text")) = .ok .preformatted
    ∧ notify_slack testCfg (.str "S") (.str "text") "us-east-1" =
        .error (.typeError "\x27str\x27 object is not a mapping")
    ∧ jsonParse "Hello world" = Option.none
    ∧ notify_slack testCfg (.str "Test") (.str "Hello world") "us-east-1" =
        .ok (.dict
          [("channel", .str "#alerts"), ("username", .str "notifier"),
           ("icon_emoji", .str ":robot_face:"),
           ("attachments", .list [.dict
             [("fallback", .str "A new message"), ("title", .str "Test"),
              ("mrkdwn_in", .list [.str "value"]),
              ("fields", .list [.dict
                [("value", .str "Hello world"), ("short", .bool false)]])]]),
           ("text", .str "[prod] AWS notification")]) :=
  ⟨rfl, rfl, rfl, rfl, rfl⟩

/-- C6: in Preformatted mode the dispatcher performs a full shallow
merge in which the caller payload wins: the result is exactly
`{**payload, **message}`, every key present in the message overrides
the corresponding base-envelope entry, and every base-envelope key absent from the
message keeps its configured value. -/
theorem c6_preformatted_merge (cfg : SlackConfig) (subject : PyVal)
    (rg : String) (kvs : List (String × PyVal))
    (hnd : (kvs.map Prod.fst).Nodup)
    (h1 : hasKey kvs "AlarmName" = false)
    (h2 : findingCondDict kvs = false)
    (h3 : hasKey kvs "attachments" = true ∨ hasKey kvs "text" = true) :
    notify_slack cfg subject (.dict kvs) rg =
      .ok (.dict (dictMerge (basePayload cfg) kvs))
    ∧ (∀ (k : String) (v : PyVal), kvs.lookup k = some v →
        (dictMerge (basePayload cfg) kvs).lookup k = some v)
    ∧ (∀ k : String, kvs.lookup k = Option.none →
        (dictMerge (basePayload cfg) kvs).lookup k =
          (basePayload cfg).lookup k) := by
  have hcl : classifyDict kvs = .preformatted := by
    unfold classifyDict
    rw [h1, h2]
    rcases h3 with h | h <;> simp [h]
  refine ⟨?_, ?_, ?_⟩
  · rw [notify_slack_dict, hcl]
    rfl
  · exact fun k v h => lookup_dictMerge_of_some kvs _ k v hnd h
  · exact fun k h => lookup_dictMerge_of_none kvs _ k h

/-- C6 witness: the example from the spec — the message
`{"text": "hi", "channel": "#other"}` overrides the envelope channel
and text while the configured username and icon survive. -/
theorem c6_preformatted_merge_witness :
    notify_slack testCfg (.str "S")
      (.dict [("text", .str "hi"), ("channel", .str "#other")]) "us-east-1" =
      .ok (.dict
        [("channel", .str "#other"), ("username", .str "notifier"),
         ("icon_emoji", .str ":robot_face:"), ("attachments", .list []),
         ("text", .str "hi")])
    ∧ (dictMerge (basePayload testCfg)
        [("text", .str "hi"), ("channel", .str "#other")]).lookup "channel" =
      some (.str "#other")
    ∧ (dictMerge (basePayload testCfg)
        [("text", .str "hi"), ("channel", .str "#other")]).lookup "username" =
      some (.str "notifier") := by
  have h := c6_preformatted_merge testCfg (.str "S") "us-east-1"
    [("text", .str "hi"), ("channel", .str "#other")]
    (by decide) rfl rfl (Or.inr rfl)
  exact ⟨h.1, h.2.1 "channel" (.str "#other") rfl,
    (h.2.2 "username" rfl).trans rfl⟩

set_option maxHeartbeats 2000000 in
/-- C8: for a Finding payload the deep-link region is the one embedded
in the message (the region argument given to the dispatcher is immaterial to
the result), and the summary text is
`"{prefix}Amazon GuardDuty Finding - {title}"` with the title drawn
from the nested detail structure. -/
theorem c8_finding_uses_embedded_region (cfg : SlackConfig) (subject : PyVal)
    (mr t : String) (rg rg' : String) :
    notify_slack cfg subject (findingMsgP mr t 5) rg =
      notify_slack cfg subject (findingMsgP mr t 5) rg'
    ∧ exGet (notify_slack cfg subject (findingMsgP mr t 5) rg) "text" =
      .ok (.str ((envPrefixOf cfg ++ "Amazon GuardDuty Finding - ") ++ t))
    ∧ findingLinkOf (exIdx (exGet (notify_slack cfg subject
        (findingMsgP mr t 5) rg) "attachments") 0) =
      .ok (.str (((if strStartsWith mr "us-gov-" then
          "https://console.amazonaws-us-gov.com/guardduty/home?region="
        else
          "https://console.aws.amazon.com/guardduty/home?region=") ++ mr ++
        "#/findings?search=id%3D") ++ "fid01")) :=
  ⟨rfl, rfl, rfl⟩

/-- C9 counterexample: a Preformatted message that supplies only
`attachments` produces an assembled envelope with no `text` key at
all, so "text is always present and non-empty" fails as stated. -/
theorem c9_envelope_invariant_counterexample :
    notify_slack testCfg (.str "S")
      (.dict [("attachments", .list [.dict [("color", .str "good")]])])
      "us-east-1" =
      .ok (.dict
        [("channel", .str "#alerts"), ("username", .str "notifier"),
         ("icon_emoji", .str ":robot_face:"),
         ("attachments", .list [.dict [("color", .str "good")]])])
    ∧ exGet (notify_slack testCfg (.str "S")
        (.dict [("attachments", .list [.dict [("color", .str "good")]])])
        "us-east-1") "text" =
      .error (.keyError "text") :=
  ⟨rfl, rfl⟩

/-- The dispatch chain on an arbitrary (post-decode) message: it fails
exactly when a classification condition fails, and otherwise runs the
branch named by the classification. -/
theorem dispatchMsg_classify (cfg : SlackConfig) (subject m : PyVal)
    (rg : String) :
    dispatchMsg cfg subject m rg =
      match classify m with
      | .error e => .error e
      | .ok .alarm => alarmBranch cfg m rg
      | .ok .finding => findingBranch cfg m
      | .ok .preformatted => mergeInto (basePayload cfg) m
      | .ok .generic => .ok (genericBranch cfg subject m) := by
  unfold dispatchMsg classify
  cases e1 : pyIn "AlarmName" m with
  | error e => simp [Bind.bind, Except.bind]
  | ok b1 =>
    cases b1 with
    | true => simp [Bind.bind, Except.bind, Pure.pure, Except.pure]
    | false =>
      cases e2 : findingCond m with
      | error e => simp [Bind.bind, Except.bind]
      | ok b2 =>
        cases b2 with
        | true => simp [Bind.bind, Except.bind, Pure.pure, Except.pure]
        | false =>
          cases e3 : preformattedCond m with
          | error e => simp [Bind.bind, Except.bind]
          | ok b3 =>
            cases b3 <;> simp [Bind.bind, Except.bind, Pure.pure, Except.pure]

/-- Invariant of every successful dispatch, for an arbitrary message
(structured or not): the result is a mapping; unless the message was
classified Preformatted it carries a non-empty text and exactly one
attachment; when it was classified Preformatted the message is itself
a mapping and the result is exactly the shallow merge. -/
theorem dispatchMsg_ok_invariant (cfg : SlackConfig) (subject m : PyVal)
    (rg : String) (v : PyVal)
    (hp : dispatchMsg cfg subject m rg = .ok v) :
    ∃ p : List (String × PyVal), v = .dict p
    ∧ (classify m ≠ .ok .preformatted →
      (∃ t, p.lookup "text" = some (.str t) ∧ t ≠ "")
      ∧ (∃ l, p.lookup "attachments" = some (.list l) ∧ l.length = 1))
    ∧ (classify m = .ok .preformatted →
      ∃ kvs : List (String × PyVal), m = .dict kvs
        ∧ p = dictMerge (basePayload cfg) kvs) := by
  rw [dispatchMsg_classify] at hp
  cases hc : classify m with
  | error e => rw [hc] at hp; simp at hp
  | ok sh =>
    rw [hc] at hp
    cases sh with
    | alarm =>
      replace hp : alarmBranch cfg m rg = .ok v := hp
      unfold alarmBranch at hp
      obtain ⟨notif, hA, hp⟩ := bind_ok_inv _ _ _ hp
      obtain ⟨name, hB, hp⟩ := bind_ok_inv _ _ _ hp
      obtain ⟨txt, hC, hp⟩ := bind_ok_inv _ _ _ hp
      obtain ⟨s, rfl, rfl⟩ := pyAddStr_ok _ _ _ hC
      simp only [Pure.pure, Except.pure, Except.ok.injEq] at hp
      subst hp
      refine ⟨_, rfl, fun _ =>
        ⟨⟨(envPrefixOf cfg ++ "AWS CloudWatch notification - ") ++ s, ?_,
            append_mid_ne_empty _ _ _ (by decide)⟩,
          ⟨[notif], ?_, rfl⟩⟩,
        fun hpre => absurd hpre (by simp)⟩
      · simp [lookup_dictSet]
      · simp [lookup_dictSet]
    | finding =>
      replace hp : findingBranch cfg m = .ok v := hp
      unfold findingBranch at hp
      obtain ⟨mrg, hA, hp⟩ := bind_ok_inv _ _ _ hp
      obtain ⟨notif, hB, hp⟩ := bind_ok_inv _ _ _ hp
      obtain ⟨detail, hC, hp⟩ := bind_ok_inv _ _ _ hp
      obtain ⟨title, hD, hp⟩ := bind_ok_inv _ _ _ hp
      obtain ⟨txt, hE, hp⟩ := bind_ok_inv _ _ _ hp
      obtain ⟨s, rfl, rfl⟩ := pyAddStr_ok _ _ _ hE
      simp only [Pure.pure, Except.pure, Except.ok.injEq] at hp
      subst hp
      refine ⟨_, rfl, fun _ =>
        ⟨⟨(envPrefixOf cfg ++ "Amazon GuardDuty Finding - ") ++ s, ?_,
            append_mid_ne_empty _ _ _ (by decide)⟩,
          ⟨[notif], ?_, rfl⟩⟩,
        fun hpre => absurd hpre (by simp)⟩
      · simp [lookup_dictSet]
      · simp [lookup_dictSet]
    | preformatted =>
      replace hp : mergeInto (basePayload cfg) m = .ok v := hp
      cases m with
      | dict kvs =>
        simp only [mergeInto, Except.ok.injEq] at hp
        subst hp
        exact ⟨_, rfl, fun hne => absurd rfl hne,
          fun _ => ⟨kvs, rfl, rfl⟩⟩
      | str s => simp [mergeInto] at hp
      | int n => simp [mergeInto] at hp
      | float q => simp [mergeInto] at hp
      | bool b => simp [mergeInto] at hp
      | noneVal => simp [mergeInto] at hp
      | list xs => simp [mergeInto] at hp
    | generic =>
      replace hp : Except.ok (genericBranch cfg subject m) = .ok v := hp
      simp only [Except.ok.injEq] at hp
      subst hp
      refine ⟨_, rfl, fun _ =>
        ⟨⟨envPrefixOf cfg ++ "AWS notification", ?_,
            append_ne_empty_right _ _ (by decide)⟩,
          ⟨[default_notification subject m], ?_, rfl⟩⟩,
        fun hpre => absurd hpre (by simp)⟩
      · simp [genericBranch, lookup_dictSet]
      · simp [genericBranch, lookup_dictSet]

/-- C9 (amended): for every input whose dispatch succeeds — structured
or raw — the assembled envelope is a mapping; unless the decoded
message was classified Preformatted, its text is present and non-empty
and its attachments list has exactly one entry; when it was classified
Preformatted, the message is necessarily a mapping and the envelope is
exactly the shallow merge of the base envelope with it (so text exists
only when the caller supplies it and the attachments value is the one
supplied by the caller, else the empty base list). -/
theorem c9_envelope_invariant_amended (cfg : SlackConfig)
    (subject message0 : PyVal) (rg : String) (v : PyVal)
    (hp : notify_slack cfg subject message0 rg = .ok v) :
    ∃ p : List (String × PyVal), v = .dict p
    ∧ (classify (parseStep message0) ≠ .ok .preformatted →
      (∃ t, p.lookup "text" = some (.str t) ∧ t ≠ "")
      ∧ (∃ l, p.lookup "attachments" = some (.list l) ∧ l.length = 1))
    ∧ (classify (parseStep message0) = .ok .preformatted →
      ∃ kvs : List (String × PyVal), parseStep message0 = .dict kvs
        ∧ p = dictMerge (basePayload cfg) kvs) := by
  unfold notify_slack at hp
  exact dispatchMsg_ok_invariant cfg subject (parseStep message0) rg v hp

/-- The envelope assembled for the raw-text payload used by the C9
witness. -/
def c9WitnessPayload : List (String × PyVal) :=
  [("channel", .str "#alerts"), ("username", .str "notifier"),
   ("icon_emoji", .str ":robot_face:"),
   ("attachments", .list [.dict
     [("fallback", .str "A new message"), ("title", .str "S"),
      ("mrkdwn_in", .list [.str "value"]),
      ("fields", .list [.dict
        [("value", .str "Hello world"), ("short", .bool false)]])]]),
   ("text", .str "[prod] AWS notification")]

/-- C9 witness: the amended invariant evaluated on the raw text
`"Hello world"`, an unstructured input whose dispatch succeeds via the
Generic branch. -/
theorem c9_envelope_invariant_witness :
    ∃ p : List (String × PyVal), PyVal.dict c9WitnessPayload = .dict p
    ∧ (classify (parseStep (.str "Hello world")) ≠ .ok .preformatted →
      (∃ t, p.lookup "text" = some (.str t) ∧ t ≠ "")
      ∧ (∃ l, p.lookup "attachments" = some (.list l) ∧ l.length = 1))
    ∧ (classify (parseStep (.str "Hello world")) = .ok .preformatted →
      ∃ kvs : List (String × PyVal), parseStep (.str "Hello world") = .dict kvs
        ∧ p = dictMerge (basePayload testCfg) kvs) :=
  c9_envelope_invariant_amended testCfg (.str "S") (.str "Hello world")
    "us-east-1" (.dict c9WitnessPayload) rfl

/-- C10: overlapping trigger keys are resolved by the fixed source
order of the dispatch chain — Alarm first, then Finding, then
Preformatted, then Generic — and only the first matching branch
runs. -/
theorem c10_priority_order (cfg : SlackConfig) (subject : PyVal)
    (rg : String) (kvs : List (String × PyVal)) :
    (hasKey kvs "AlarmName" = true →
      classify (.dict kvs) = .ok .alarm
      ∧ notify_slack cfg subject (.dict kvs) rg =
          alarmBranch cfg (.dict kvs) rg)
    ∧ (hasKey kvs "AlarmName" = false → findingCondDict kvs = true →
      classify (.dict kvs) = .ok .finding
      ∧ notify_slack cfg subject (.dict kvs) rg =
          findingBranch cfg (.dict kvs))
    ∧ (hasKey kvs "AlarmName" = false → findingCondDict kvs = false →
       (hasKey kvs "attachments" = true ∨ hasKey kvs "text" = true) →
      classify (.dict kvs) = .ok .preformatted
      ∧ notify_slack cfg subject (.dict kvs) rg =
          mergeInto (basePayload cfg) (.dict kvs))
    ∧ (hasKey kvs "AlarmName" = false → findingCondDict kvs = false →
       hasKey kvs "attachments" = false → hasKey kvs "text" = false →
      classify (.dict kvs) = .ok .generic
      ∧ notify_slack cfg subject (.dict kvs) rg =
          .ok (genericBranch cfg subject (.dict kvs))) := by
  refine ⟨fun ha => ?_, fun ha hf => ?_, fun ha hf hpre => ?_,
    fun ha hf hp1 hp2 => ?_⟩
  · have hcl : classifyDict kvs = .alarm := by simp [classifyDict, ha]
    exact ⟨by rw [classify_dict, hcl], by rw [notify_slack_dict, hcl]⟩
  · have hcl : classifyDict kvs = .finding := by simp [classifyDict, ha, hf]
    exact ⟨by rw [classify_dict, hcl], by rw [notify_slack_dict, hcl]⟩
  · have hcl : classifyDict kvs = .preformatted := by
      unfold classifyDict
      rw [ha, hf]
      rcases hpre with h | h <;> simp [h]
    exact ⟨by rw [classify_dict, hcl], by rw [notify_slack_dict, hcl]⟩
  · have hcl : classifyDict kvs = .generic := by
      simp [classifyDict, ha, hf, hp1, hp2]
    refine ⟨by rw [classify_dict, hcl], ?_⟩
    rw [notify_slack_dict, hcl]
    rfl

/-- C10 witness: a payload carrying both `AlarmName` and `text` (and a
GuardDuty detail-type) is dispatched as an Alarm, and one carrying
both the GuardDuty detail-type and `attachments` is dispatched as a
Finding. -/
theorem c10_priority_order_witness :
    (classify (.dict
        [("AlarmName", .str "a"), ("text", .str "t"),
         ("detail-type", .str "GuardDuty Finding"),
         ("attachments", .list [])]) = .ok .alarm
      ∧ notify_slack testCfg (.str "S") (.dict
        [("AlarmName", .str "a"), ("text", .str "t"),
         ("detail-type", .str "GuardDuty Finding"),
         ("attachments", .list [])]) "us-east-1" =
        alarmBranch testCfg (.dict
        [("AlarmName", .str "a"), ("text", .str "t"),
         ("detail-type", .str "GuardDuty Finding"),
         ("attachments", .list [])]) "us-east-1")
    ∧ (classify (.dict
        [("detail-type", .str "GuardDuty Finding"),
         ("attachments", .list [])]) = .ok .finding
      ∧ notify_slack testCfg (.str "S") (.dict
        [("detail-type", .str "GuardDuty Finding"),
         ("attachments", .list [])]) "us-east-1" =
        findingBranch testCfg (.dict
        [("detail-type", .str "GuardDuty Finding"),
         ("attachments", .list [])])) :=
  ⟨(c10_priority_order testCfg (.str "S") "us-east-1"
      [("AlarmName", .str "a"), ("text", .str "t"),
       ("detail-type", .str "GuardDuty Finding"),
       ("attachments", .list [])]).1 rfl,
   (c10_priority_order testCfg (.str "S") "us-east-1"
      [("detail-type", .str "GuardDuty Finding"),
       ("attachments", .list [])]).2.1 rfl rfl⟩

end NotifySlack
